import Mathlib

/-!
Verification of the GameParkour backend (Express + SQLite game-library tracker).

The repository holds three near-duplicate copies of the same server:
`The_GamePakour/server.js` (called the `Server` variant below), and two
unnamed copies called `P000` and `P001` after their file names.  The schema
comes from `init-db.sql`.  This file embeds the data model, the session gate
(`requireLogin`), the auth, profile, collection, wishlist and stats handlers
of those variants, and proves or refutes the frozen claims about them.

Modelling conventions:
- SQLite rows are Lean structures; a nullable column is an `Option`.
- JavaScript numbers are idealized as exact arithmetic: integers are `Int`
  and the floating expressions inside `Math.round` are `Rat`.
- A JS value that may be absent, a number, or a string is a `JVal`;
  `Number(x)` is `toNumber` (with `none` playing the role of `NaN`), and the
  `x || d` default idiom is `jsOrNum` / `jsOrStr` (`0`, `""`, `NaN`,
  `null` and `undefined` are falsy).
- `db.run`/`db.get` callbacks are sequenced as plain function composition;
  a handler returns the updated store paired with the HTTP response.
-/

namespace GameParkour

/-- Stored value of an INTEGER-affinity SQLite column: NULL, an integer, or
text that could not be converted (SQLite keeps non-numeric text as TEXT). -/
inductive ColVal where
  | null : ColVal
  | int (n : Int) : ColVal
  | text (s : String) : ColVal
  deriving Repr, DecidableEq

/-- Value taken from a JS request body field: absent, a number, or a string. -/
inductive JVal where
  | undef : JVal
  | num (n : Int) : JVal
  | str (s : String) : JVal
  deriving Repr, DecidableEq

/-- Value of a decimal digit character. -/
def decDigit (c : Char) : Option Nat :=
  if '0' ≤ c ∧ c ≤ '9' then some (c.toNat - '0'.toNat) else none

/-- Value of a nonempty all-digit character list, `none` otherwise. -/
def digitsToNat (cs : List Char) : Option Nat :=
  cs.foldl (fun acc c =>
    match acc, decDigit c with
    | some n, some d => some (10*n + d)
    | _, _ => none) (if cs.isEmpty then none else some 0)

/-- Parse a signed decimal integer literal; `none` for anything else. -/
def strToIntLit (s : String) : Option Int :=
  match s.data with
  | '-' :: rest => (digitsToNat rest).map (fun n => -(n : Int))
  | cs => (digitsToNat cs).map (fun n => (n : Int))

/-- JS `Number(v)` on a request value, idealized to integer literals;
`none` stands for `NaN`.  `Number(undefined)` is `NaN` and `Number("")` is
`0`. -/
def toNumber : JVal → Option Int
  | .undef => none
  | .num n => some n
  | .str s => if s = "" then some 0 else strToIntLit s

/-- JS `v || d` on a number that may be `NaN`/`null`/`undefined` (`none`):
falsy values (`none` and `0`) give the default. -/
def jsOrNum (v : Option Int) (d : Int) : Int :=
  match v with
  | none => d
  | some n => if n = 0 then d else n

/-- JS `v || d` on a string that may be `undefined` (`none`): absent and
empty strings give the default. -/
def jsOrStr (v : Option String) (d : String) : String :=
  match v with
  | none => d
  | some s => if s = "" then d else s

/-- JS `ToNumber` coercion of a possibly-`null` numeric field: `null`
coerces to `0`. -/
def jsToNum (v : Option Int) : Int :=
  match v with
  | none => 0
  | some n => n

/-- JS `Math.round`: nearest integer, halves toward positive infinity. -/
def jsRound (x : Rat) : Int := ⌊x + 1/2⌋

/-- SQLite INTEGER-affinity conversion applied when binding a JS value into
the `hours` column: numbers stay numbers, a well-formed integer literal
string is converted, other strings stay TEXT, absent binds NULL. -/
def bindIntCol : JVal → ColVal
  | .undef => .null
  | .num n => .int n
  | .str s =>
    match strToIntLit s with
    | some n => .int n
    | none => .text s

/-- Numeric interpretation SQLite uses for a stored value inside `SUM`
(NULL rows are skipped by the caller; non-numeric text counts as 0). -/
def colNumVal : ColVal → Int
  | .null => 0
  | .int n => n
  | .text s => (strToIntLit s).getD 0

/-- Row of the `users` table from init-db.sql (created_at omitted; it is
never read by the handlers).  `name` and `email` are NOT NULL and `email`
is UNIQUE; those constraints are enforced by the write operations. -/
structure UserRow where
  id : Nat
  name : Option String
  email : Option String
  password_hash : String
  favorite_genre : Option String
  hours_played : Option Int
  wins : Option Int
  losses : Option Int
  level : Option Int
  photo : Option String
  bioText : Option String
  deriving Repr, DecidableEq

/-- Row of the `games` table (created_at omitted).  `title` is NOT NULL;
`owned` is stored as 0/1 and modelled as Bool. -/
structure GameRow where
  id : Nat
  user_id : Nat
  title : Option String
  genre : Option String
  hours : ColVal
  owned : Bool
  img_url : Option String
  deriving Repr, DecidableEq

/-- Row of the `wishlist` table (schema per spec section 6; created_at
omitted). -/
structure WishRow where
  id : Nat
  user_id : Nat
  title : Option String
  genre : Option String
  expected_release : Option String
  deriving Repr, DecidableEq

/-- The single-file relational store: the three tables the handlers touch. -/
structure Store where
  users : List UserRow
  games : List GameRow
  wishlist : List WishRow
  deriving Repr, DecidableEq

/-- Stats body produced by the P000 variant of GET /api/stats: every field
is a defined integer.  The source calls the last field `winRatio`. -/
structure StatsP000 where
  totalGames : Int
  totalHours : Int
  level : Int
  levelProgress : Int
  winRatioPct : Int
  deriving Repr, DecidableEq

/-- Stats body produced by the Server variant of GET /api/stats: `level` is
passed through unchanged, so it can be null.  The source calls the last
field `winRatio`. -/
structure StatsServer where
  totalGames : Int
  totalHours : Int
  level : Option Int
  levelProgress : Int
  winRatioPct : Int
  deriving Repr, DecidableEq

/-- HTTP responses the embedded handlers can produce.  `errorResp` carries
the status code and the string of the `error` body field; the `ok`
constructors mirror the JSON success bodies. -/
inductive ApiResp where
  | errorResp (status : Nat) (msg : String)
  | okUnit
  | okId (id : Nat)
  | okDeleted (deleted : Nat)
  | okLoginP000 (userId : Nat) (name email : Option String)
  | okLoginSimple
  | okProfile (row : Option UserRow)
  | okGames (rows : List GameRow)
  | okWish (rows : List WishRow)
  | okStatsP000 (s : StatsP000)
  | okStatsServer (s : StatsServer)
  | jsThrow
  deriving Repr, DecidableEq

/-- The 401 response every requireLogin gate produces. -/
def unauthorizedResp : ApiResp := .errorResp 401 "Unauthorized"

/-- The 500 response used whenever the store reports an error. -/
def dbErrorResp : ApiResp := .errorResp 500 "DB error"

/-- The requireLogin middleware of all three variants: if the session
carries a truthy userId the handler runs, otherwise it answers 401
Unauthorized without touching the store (a userId of 0 is falsy in JS,
though AUTOINCREMENT ids start at 1). -/
def requireLogin (sess : Option Nat) (st : Store)
    (k : Nat → Store × ApiResp) : Store × ApiResp :=
  match sess with
  | some uid => if uid = 0 then (st, unauthorizedResp) else k uid
  | none => (st, unauthorizedResp)

/-- SELECT ... FROM users WHERE email = ?: first row whose email column
equals the bound string (a NULL email never compares equal). -/
def findByEmail (st : Store) (e : String) : Option UserRow :=
  st.users.find? (fun u => u.email == some e)

/-- SELECT ... FROM users WHERE id = ?. -/
def findUserById (st : Store) (uid : Nat) : Option UserRow :=
  st.users.find? (fun u => u.id == uid)

/-- The 401 invalid-credentials response of the Server and P000 login. -/
def invalidCreds : ApiResp := .errorResp 401 "Invalid credentials"

/-- POST /api/login of the P000 variant: 400 when email or password is
falsy, then one SELECT by email; a missing row and a failed hash
verification both answer with `invalidCreds`; success echoes id, name and
email.  `verify` abstracts `bcrypt.compare`. -/
def loginP000 (verify : String → String → Bool) (st : Store)
    (email pw : Option String) : ApiResp :=
  match email, pw with
  | some e, some p =>
    if e = "" ∨ p = "" then .errorResp 400 "Missing fields"
    else
      match findByEmail st e with
      | none => invalidCreds
      | some row =>
        if verify p row.password_hash then .okLoginP000 row.id row.name row.email
        else invalidCreds
  | _, _ => .errorResp 400 "Missing fields"

/-- POST /api/login of the Server variant (no missing-fields precheck;
success body is a bare ok).  Embedded over the supplied credential
strings. -/
def loginServer (verify : String → String → Bool) (st : Store)
    (e p : String) : ApiResp :=
  match findByEmail st e with
  | none => invalidCreds
  | some row =>
    if verify p row.password_hash then .okLoginSimple else invalidCreds

/-- POST /api/login of the P001 variant: identical to the Server variant
except that both failure branches answer 401 with the text Invalid login. -/
def loginP001 (verify : String → String → Bool) (st : Store)
    (e p : String) : ApiResp :=
  match findByEmail st e with
  | none => .errorResp 401 "Invalid login"
  | some row =>
    if verify p row.password_hash then .okLoginSimple
    else .errorResp 401 "Invalid login"

/-- SQL COALESCE of two nullable text values. -/
def coalesce (a b : Option String) : Option String :=
  match a with
  | some x => some x
  | none => b

/-- UPDATE users SET name = ?, email = ?, bio = ?, photo = COALESCE(?, photo)
WHERE id = ? (shared by the Server and P000 variants).  An absent body
field binds NULL; the schema rejects a NULL name or email (NOT NULL) and a
duplicate email (UNIQUE), surfacing as the 500 DB-error response.  When no
row matches the id the update succeeds vacuously. -/
def runProfileUpdate (st : Store) (uid : Nat)
    (name email bioIn photoPath : Option String) : Store × ApiResp :=
  match findUserById st uid with
  | none => (st, .okUnit)
  | some _ =>
    if name = none ∨ email = none then (st, dbErrorResp)
    else if st.users.any (fun u => u.id != uid && u.email == email) then
      (st, dbErrorResp)
    else
      ({ st with
          users := st.users.map (fun u =>
            if u.id == uid then
              { u with name := name, email := email, bioText := bioIn,
                       photo := coalesce photoPath u.photo }
            else u) },
        .okUnit)

/-- GET /api/profile of the P000 variant: one SELECT by id; an absent row
becomes an empty profile object. -/
def runProfileGet (st : Store) (uid : Nat) : Store × ApiResp :=
  (st, .okProfile (findUserById st uid))

/-- AUTOINCREMENT id for an insert: one more than the largest id used. -/
def nextId (ids : List Nat) : Nat := ids.foldr max 0 + 1

/-- POST /api/collection of the P000 variant: hours is Number(hours) with
the `|| 0` default, title, genre and img_url get the `||` defaults, the row
is inserted with owned = 1 and the new id is returned. -/
def runAddGameP000 (st : Store) (uid : Nat)
    (title genre img : Option String) (hoursIn : JVal) : Store × ApiResp :=
  let hrs := jsOrNum (toNumber hoursIn) 0
  let gid := nextId (st.games.map (·.id))
  ({ st with
      games := st.games ++
        [⟨gid, uid, some (jsOrStr title "Untitled"), some (jsOrStr genre ""),
          .int hrs, true, some (jsOrStr img "")⟩] },
    .okId gid)

/-- POST /api/collection of the Server variant: the body fields are bound
uncoerced.  A NULL title violates the NOT NULL constraint (500); the hours
binding goes through SQLite INTEGER affinity. -/
def runAddGameServer (st : Store) (uid : Nat)
    (title genre img : Option String) (hoursIn : JVal) : Store × ApiResp :=
  match title with
  | none => (st, dbErrorResp)
  | some t =>
    let gid := nextId (st.games.map (·.id))
    ({ st with
        games := st.games ++
          [⟨gid, uid, some t, genre, bindIntCol hoursIn, true, img⟩] },
      .okId gid)

/-- ORDER BY id DESC: insertion sort by strictly larger id first (ids are
unique, so the order is fully determined). -/
def insertDescById (g : GameRow) : List GameRow → List GameRow
  | [] => [g]
  | h :: t => if h.id ≤ g.id then g :: h :: t else h :: insertDescById g t

/-- Sorted-descending view of a games list, as produced by ORDER BY id
DESC. -/
def sortDescById : List GameRow → List GameRow
  | [] => []
  | h :: t => insertDescById h (sortDescById t)

/-- SELECT * FROM games WHERE user_id = ? AND owned = 1 (shared by both
variants and by the stats aggregation). -/
def ownedGamesOf (st : Store) (uid : Nat) : List GameRow :=
  st.games.filter (fun g => g.user_id == uid && g.owned)

/-- GET /api/collection (same SQL in the Server and P000 variants). -/
def runListGames (st : Store) (uid : Nat) : Store × ApiResp :=
  (st, .okGames (sortDescById (ownedGamesOf st uid)))

/-- DELETE FROM games WHERE id = ? AND user_id = ?: drops exactly the rows
matching both the id and the owning user, and reports this.changes, the
number of rows dropped. -/
def deleteGameSql (st : Store) (uid gid : Nat) : Store × Nat :=
  ({ st with games := st.games.filter (fun g => !(g.id == gid && g.user_id == uid)) },
    st.games.countP (fun g => g.id == gid && g.user_id == uid))

/-- DELETE /api/collection/:id of the P000 variant: responds ok with
deleted = this.changes. -/
def runCollectionDeleteP000 (st : Store) (uid gid : Nat) : Store × ApiResp :=
  let r := deleteGameSql st uid gid
  (r.1, .okDeleted r.2)

/-- DELETE /api/collection/:id of the Server variant: same SQL, but the
response is a bare ok that does not report this.changes. -/
def runCollectionDeleteServer (st : Store) (uid gid : Nat) : Store × ApiResp :=
  let r := deleteGameSql st uid gid
  (r.1, .okUnit)

/-- POST /api/wishlist of the P000 variant. -/
def runAddWishP000 (st : Store) (uid : Nat)
    (title genre rel : Option String) : Store × ApiResp :=
  let wid := nextId (st.wishlist.map (·.id))
  ({ st with
      wishlist := st.wishlist ++
        [⟨wid, uid, some (jsOrStr title "Untitled"), some (jsOrStr genre ""),
          some (jsOrStr rel "")⟩] },
    .okId wid)

/-- GET /api/wishlist (ordering by descending id left abstract at the row
list level; only the row set matters to the claims). -/
def runListWish (st : Store) (uid : Nat) : Store × ApiResp :=
  (st, .okWish (st.wishlist.filter (fun w => w.user_id == uid)))

/-- DELETE /api/wishlist/:id of the P000 variant. -/
def runWishDeleteP000 (st : Store) (uid wid : Nat) : Store × ApiResp :=
  ({ st with
      wishlist := st.wishlist.filter (fun w => !(w.id == wid && w.user_id == uid)) },
    .okDeleted (st.wishlist.countP (fun w => w.id == wid && w.user_id == uid)))

/-- SELECT SUM(hours) over a list of game rows: NULL when no non-NULL
value contributes, otherwise the sum of the numeric interpretations. -/
def sumHours (gs : List GameRow) : Option Int :=
  let vals := gs.filterMap (fun g =>
    match g.hours with
    | .null => none
    | v => some (colNumVal v))
  if vals.isEmpty then none else some vals.sum

/-- The winRatio computation shared by both stats variants:
0 when wins + losses is 0, otherwise Math.round((wins/(wins+losses))*100). -/
def winRatioJs (wins losses : Int) : Int :=
  if wins + losses = 0 then 0
  else jsRound (((wins : Rat) / ((wins : Rat) + (losses : Rat))) * 100)

/-- GET /api/stats of the P000 variant: COUNT and COALESCE(SUM(hours),0)
over the owned games, then the user row; wins, losses default to 0 and
level to 1 through `||`, levelProgress is clamped with Math.min, and a
missing user row is tolerated by the `userRow &&` guards. -/
def runGetStatsP000 (st : Store) (uid : Nat) : Store × ApiResp :=
  let gs := ownedGamesOf st uid
  let totalHoursSql : Int := (sumHours gs).getD 0
  let u := findUserById st uid
  let wins := jsOrNum (u.bind (·.wins)) 0
  let losses := jsOrNum (u.bind (·.losses)) 0
  let level := jsOrNum (u.bind (·.level)) 1
  (st, .okStatsP000
    { totalGames := jsOrNum (some (gs.length : Int)) 0
      totalHours := jsOrNum (some totalHoursSql) 0
      level := level
      levelProgress := min (jsRound (((level : Rat) / 100) * 100)) 100
      winRatioPct := winRatioJs wins losses })

/-- GET /api/stats of the Server variant: no COALESCE on the SUM, no
`userRow &&` guard (a missing user row makes `userRow.wins` throw), the
level field is passed through unchanged (possibly null, and null coerces
to 0 inside the levelProgress arithmetic), and levelProgress has no
Math.min clamp. -/
def runGetStatsServer (st : Store) (uid : Nat) : Store × ApiResp :=
  let gs := ownedGamesOf st uid
  let totalHoursSql : Option Int := sumHours gs
  match findUserById st uid with
  | none => (st, .jsThrow)
  | some row =>
    let wins := jsOrNum row.wins 0
    let losses := jsOrNum row.losses 0
    (st, .okStatsServer
      { totalGames := jsOrNum (some (gs.length : Int)) 0
        totalHours := jsOrNum totalHoursSql 0
        level := row.level
        levelProgress := jsRound (((jsToNum row.level : Rat) / 100) * 100)
        winRatioPct := winRatioJs wins losses })

/-- GET /api/profile behind the login gate. -/
def apiProfileGet (sess : Option Nat) (st : Store) : Store × ApiResp :=
  requireLogin sess st (fun uid => runProfileGet st uid)

/-- POST /api/profile/update behind the login gate; an uploaded file named
f is stored and referenced as /uploads/f. -/
def apiProfileUpdate (sess : Option Nat) (st : Store)
    (name email bioIn : Option String) (file : Option String) : Store × ApiResp :=
  requireLogin sess st (fun uid =>
    runProfileUpdate st uid name email bioIn (file.map (fun f => "/uploads/" ++ f)))

/-- POST /api/collection (P000 variant) behind the login gate. -/
def apiCollectionAddP000 (sess : Option Nat) (st : Store)
    (title genre img : Option String) (hoursIn : JVal) : Store × ApiResp :=
  requireLogin sess st (fun uid => runAddGameP000 st uid title genre img hoursIn)

/-- GET /api/collection behind the login gate. -/
def apiCollectionList (sess : Option Nat) (st : Store) : Store × ApiResp :=
  requireLogin sess st (fun uid => runListGames st uid)

/-- DELETE /api/collection/:id (P000 variant) behind the login gate. -/
def apiCollectionDeleteP000 (sess : Option Nat) (st : Store) (gid : Nat) :
    Store × ApiResp :=
  requireLogin sess st (fun uid => runCollectionDeleteP000 st uid gid)

/-- DELETE /api/collection/:id (Server variant) behind the login gate. -/
def apiCollectionDeleteServer (sess : Option Nat) (st : Store) (gid : Nat) :
    Store × ApiResp :=
  requireLogin sess st (fun uid => runCollectionDeleteServer st uid gid)

/-- POST /api/wishlist (P000 variant) behind the login gate. -/
def apiWishAddP000 (sess : Option Nat) (st : Store)
    (title genre rel : Option String) : Store × ApiResp :=
  requireLogin sess st (fun uid => runAddWishP000 st uid title genre rel)

/-- GET /api/wishlist behind the login gate. -/
def apiWishList (sess : Option Nat) (st : Store) : Store × ApiResp :=
  requireLogin sess st (fun uid => runListWish st uid)

/-- DELETE /api/wishlist/:id (P000 variant) behind the login gate. -/
def apiWishDeleteP000 (sess : Option Nat) (st : Store) (wid : Nat) :
    Store × ApiResp :=
  requireLogin sess st (fun uid => runWishDeleteP000 st uid wid)

/-- GET /api/stats (P000 variant) behind the login gate. -/
def apiStatsP000 (sess : Option Nat) (st : Store) : Store × ApiResp :=
  requireLogin sess st (fun uid => runGetStatsP000 st uid)

/-- GET /api/stats (Server variant) behind the login gate. -/
def apiStatsServer (sess : Option Nat) (st : Store) : Store × ApiResp :=
  requireLogin sess st (fun uid => runGetStatsServer st uid)

/-- Projection of a Server-variant stats response body. -/
def statsServerOf : ApiResp → Option StatsServer
  | .okStatsServer s => some s
  | _ => none

/-- Projection of a P000-variant stats response body. -/
def statsP000Of : ApiResp → Option StatsP000
  | .okStatsP000 s => some s
  | _ => none

/-- True exactly when a response body carries the deleted row count. -/
def carriesDeletedCount : ApiResp → Bool
  | .okDeleted _ => true
  | _ => false

/-- A concrete registered user for witnesses and counterexamples. -/
def adaUser : UserRow :=
  ⟨1, some "Ada", some "ada@example.com", "hash-ada", none, none, none, none,
   none, none, some "likes platformers"⟩

/-- A one-user store for witnesses and counterexamples. -/
def adaStore : Store := ⟨[adaUser], [], []⟩

/-- A hash verifier that rejects everything, standing in for
bcrypt.compare against a wrong password. -/
def neverVerify : String → String → Bool := fun _ _ => false

/-- Modelled from the spec: integer round-half-up of the fraction n over d
(for a positive denominator d), the reading the spec gives to
round(100 * wins / (wins + losses)) as an integer percentage. -/
def roundHalfUpFrac (n : Int) (d : Nat) : Int := (2 * n + d) / (2 * d : Nat)

/-- A user with wins 3, losses 1 and level 150, for the stats claims. -/
def leeUser : UserRow :=
  ⟨1, some "Lee", some "lee@example.com", "hash-lee", none, none, some 3,
   some 1, some 150, none, none⟩

/-- A one-user store around `leeUser`. -/
def leeStore : Store := ⟨[leeUser], [], []⟩

/-- A copy of the lee store with level 40 instead of 150. -/
def lee40Store : Store :=
  ⟨[{ leeUser with level := some 40 }], [], []⟩

/-- A user whose nullable stat columns are all NULL. -/
def nullStatsUser : UserRow :=
  ⟨1, some "Nul", some "nul@example.com", "hash-nul", none, none, none,
   none, none, none, none⟩

/-- A one-user store around `nullStatsUser`. -/
def nullStatsStore : Store := ⟨[nullStatsUser], [], []⟩

/-- A second registered user. -/
def bobUser : UserRow :=
  ⟨2, some "Bob", some "bob@example.com", "hash-bob", none, none, none, none,
   none, none, none⟩

/-- A game row with id 7 owned by the second user. -/
def bobGame : GameRow := ⟨7, 2, some "Halo", none, .int 2, true, none⟩

/-- A two-user store where the only game belongs to the second user. -/
def twoUserStore : Store := ⟨[adaUser, bobUser], [bobGame], []⟩

/-- The ada user with a stored photo reference. -/
def photoUser : UserRow := { adaUser with photo := some "/uploads/old.png" }

/-- A one-user store around `photoUser`. -/
def photoStore : Store := ⟨[photoUser], [], []⟩

/-- The row produced for the matched user by the profile UPDATE: name,
email and bio are overwritten with the bound values and photo goes through
COALESCE with the previous value. -/
def updatedRow (u : UserRow) (name email bioIn photoPath : Option String) : UserRow :=
  { u with
      name := name
      email := email
      bioText := bioIn
      photo := coalesce photoPath u.photo }

/-- C1: with no session-bound user id, every protected endpoint of every
variant answers HTTP 401 with the Unauthorized error body and returns the
store unchanged; the right-hand side never mentions the handler, so no row
of the store is consulted. -/
theorem c1_no_session_unauthorized :
    (∀ st, apiProfileGet none st = (st, unauthorizedResp)) ∧
    (∀ st n e b f, apiProfileUpdate none st n e b f = (st, unauthorizedResp)) ∧
    (∀ st t g i h, apiCollectionAddP000 none st t g i h = (st, unauthorizedResp)) ∧
    (∀ st, apiCollectionList none st = (st, unauthorizedResp)) ∧
    (∀ st gid, apiCollectionDeleteP000 none st gid = (st, unauthorizedResp)) ∧
    (∀ st gid, apiCollectionDeleteServer none st gid = (st, unauthorizedResp)) ∧
    (∀ st t g r, apiWishAddP000 none st t g r = (st, unauthorizedResp)) ∧
    (∀ st, apiWishList none st = (st, unauthorizedResp)) ∧
    (∀ st wid, apiWishDeleteP000 none st wid = (st, unauthorizedResp)) ∧
    (∀ st, apiStatsP000 none st = (st, unauthorizedResp)) ∧
    (∀ st, apiStatsServer none st = (st, unauthorizedResp)) :=
  ⟨fun _ => rfl, fun _ _ _ _ _ => rfl, fun _ _ _ _ _ => rfl, fun _ => rfl,
   fun _ _ => rfl, fun _ _ => rfl, fun _ _ _ _ => rfl, fun _ => rfl,
   fun _ _ => rfl, fun _ => rfl, fun _ => rfl⟩

/-- C2: in each of the three login variants, the no-such-email failure and
the hash-mismatch failure produce the very same response value (the same
401 status and the same error body), so the two causes are
indistinguishable to an observer. -/
theorem c2_login_failures_indistinguishable :
    (∀ (verify : String → String → Bool) st e p, e ≠ "" → p ≠ "" →
      findByEmail st e = none →
      loginP000 verify st (some e) (some p) = invalidCreds) ∧
    (∀ (verify : String → String → Bool) st e p row, e ≠ "" → p ≠ "" →
      findByEmail st e = some row → verify p row.password_hash = false →
      loginP000 verify st (some e) (some p) = invalidCreds) ∧
    (∀ (verify : String → String → Bool) st e p,
      findByEmail st e = none → loginServer verify st e p = invalidCreds) ∧
    (∀ (verify : String → String → Bool) st e p row,
      findByEmail st e = some row → verify p row.password_hash = false →
      loginServer verify st e p = invalidCreds) ∧
    (∀ (verify : String → String → Bool) st e p,
      findByEmail st e = none →
      loginP001 verify st e p = .errorResp 401 "Invalid login") ∧
    (∀ (verify : String → String → Bool) st e p row,
      findByEmail st e = some row → verify p row.password_hash = false →
      loginP001 verify st e p = .errorResp 401 "Invalid login") := by
  refine ⟨?_, ?_, ?_, ?_, ?_, ?_⟩
  · intro verify st e p he hp hfind
    simp [loginP000, he, hp, hfind]
  · intro verify st e p row he hp hfind hver
    simp [loginP000, he, hp, hfind, hver]
  · intro verify st e p hfind
    simp [loginServer, hfind]
  · intro verify st e p row hfind hver
    simp [loginServer, hfind, hver]
  · intro verify st e p hfind
    simp [loginP001, hfind]
  · intro verify st e p row hfind hver
    simp [loginP001, hfind, hver]

/-- Witness for C2: on a concrete store both failure causes of each login
variant evaluate to the common 401 response. -/
theorem c2_witness :
    loginP000 neverVerify adaStore (some "ghost@example.com") (some "pw") = invalidCreds ∧
    loginP000 neverVerify adaStore (some "ada@example.com") (some "wrong") = invalidCreds ∧
    loginServer neverVerify adaStore "ghost@example.com" "pw" = invalidCreds ∧
    loginServer neverVerify adaStore "ada@example.com" "wrong" = invalidCreds ∧
    loginP001 neverVerify adaStore "ghost@example.com" "pw" = .errorResp 401 "Invalid login" ∧
    loginP001 neverVerify adaStore "ada@example.com" "wrong" = .errorResp 401 "Invalid login" :=
  ⟨c2_login_failures_indistinguishable.1 neverVerify adaStore _ _
      (by decide) (by decide) (by rfl),
   c2_login_failures_indistinguishable.2.1 neverVerify adaStore _ _ adaUser
      (by decide) (by decide) (by rfl) (by rfl),
   c2_login_failures_indistinguishable.2.2.1 neverVerify adaStore _ _ (by rfl),
   c2_login_failures_indistinguishable.2.2.2.1 neverVerify adaStore _ _ adaUser
      (by rfl) (by rfl),
   c2_login_failures_indistinguishable.2.2.2.2.1 neverVerify adaStore _ _ (by rfl),
   c2_login_failures_indistinguishable.2.2.2.2.2 neverVerify adaStore _ _ adaUser
      (by rfl) (by rfl)⟩

/-- Rounding an integer-valued rational returns the integer. -/
theorem jsRound_intCast (z : Int) : jsRound (z : Rat) = z := by
  unfold jsRound
  rw [Int.floor_int_add]
  norm_num

/-- C9: the winRatio computation of both stats variants is 0 when
wins + losses is 0 and otherwise the round-half-up integer percentage of
wins over wins + losses; in particular wins 3 and losses 1 give 75, and
wins 0 and losses 0 give 0. -/
theorem c9_win_ratio_half_up :
    (∀ w l : Int, w + l = 0 → winRatioJs w l = 0) ∧
    (∀ w l : Nat, 0 < w + l →
      winRatioJs w l = roundHalfUpFrac (100 * (w : Int)) (w + l)) ∧
    winRatioJs 3 1 = 75 ∧ winRatioJs 0 0 = 0 := by
  refine ⟨?_, ?_, ?_, ?_⟩
  · intro w l h
    simp [winRatioJs, h]
  · intro w l h
    have hn : (w + l : Nat) ≠ 0 := h.ne'
    have hne : ((w : Int) + (l : Int)) ≠ 0 := by exact_mod_cast hn
    have ht : ((w : Rat) + (l : Rat)) ≠ 0 := by exact_mod_cast hn
    unfold winRatioJs jsRound roundHalfUpFrac
    rw [if_neg hne]
    rw [← Rat.floor_intCast_div_natCast
      (2 * (100 * (w : Int)) + (w + l : Nat)) (2 * (w + l))]
    congr 1
    push_cast
    field_simp
    ring
  · norm_num [winRatioJs, jsRound, Int.floor_eq_iff]
  · simp [winRatioJs]

/-- Witness for C9: the round-half-up characterization evaluated at
wins 3, losses 1 and at wins 0, losses 0. -/
theorem c9_witness :
    winRatioJs 3 1 = roundHalfUpFrac (100 * 3) 4 ∧ winRatioJs 0 0 = 0 :=
  ⟨by
    have h := c9_win_ratio_half_up.2.1 3 1 (by decide)
    simpa using h,
   c9_win_ratio_half_up.1 0 0 (by decide)⟩

/-- Counterexample to C5: the Server variant of GET /api/stats has no
Math.min clamp, so a stored level of 150 yields levelProgress 150, not the
claimed min(round(100 * level / 100), 100) = 100. -/
theorem c5_counterexample :
    (statsServerOf (runGetStatsServer leeStore 1).2).map (fun s => s.levelProgress)
      = some 150 ∧
    ¬ ((150 : Int) = min 150 100) := by
  constructor
  · have hfind : findUserById leeStore 1 = some leeUser := rfl
    have h150 : jsRound 150 = 150 := by norm_num [jsRound, Int.floor_eq_iff]
    simp [runGetStatsServer, statsServerOf, hfind, leeUser, jsToNum, h150]
  · decide

/-- C5 amended: for a stored non-zero level l, the P000 variant returns
levelProgress = min(round((l / 100) * 100), 100) = min l 100 (so 150 gives
100 and 40 gives 40), while the Server variant applies no clamp and
returns l itself. -/
theorem c5_level_progress_by_variant :
    (∀ st uid row l, findUserById st uid = some row → row.level = some l →
      l ≠ 0 →
      (statsP000Of (runGetStatsP000 st uid).2).map (fun s => s.levelProgress)
        = some (min l 100) ∧
      (statsServerOf (runGetStatsServer st uid).2).map (fun s => s.levelProgress)
        = some l) ∧
    (statsP000Of (runGetStatsP000 leeStore 1).2).map (fun s => s.levelProgress)
      = some 100 ∧
    (statsP000Of (runGetStatsP000 lee40Store 1).2).map (fun s => s.levelProgress)
      = some 40 := by
  have hcancel : ∀ l : Int, ((l : Rat) / 100) * 100 = (l : Rat) :=
    fun l => div_mul_cancel₀ _ (by norm_num)
  refine ⟨?_, ?_, ?_⟩
  · intro st uid row l hfind hlvl hne
    constructor
    · simp [runGetStatsP000, statsP000Of, hfind, hlvl, jsOrNum, hne, hcancel,
        jsRound_intCast]
    · simp [runGetStatsServer, statsServerOf, hfind, hlvl, jsToNum, hcancel,
        jsRound_intCast]
  · have hfind : findUserById leeStore 1 = some leeUser := rfl
    have h150 : jsRound 150 = 150 := by norm_num [jsRound, Int.floor_eq_iff]
    simp [runGetStatsP000, statsP000Of, hfind, leeUser, jsOrNum, h150]
  · have hfind : findUserById lee40Store 1 = some { leeUser with level := some 40 } := rfl
    have h40 : jsRound 40 = 40 := by norm_num [jsRound, Int.floor_eq_iff]
    simp [runGetStatsP000, statsP000Of, hfind, leeUser, jsOrNum, h40]

/-- Witness for C5 amended: at the concrete store with level 150 both
variants evaluate as the theorem states. -/
theorem c5_witness :
    (statsP000Of (runGetStatsP000 leeStore 1).2).map (fun s => s.levelProgress)
      = some (min 150 100) ∧
    (statsServerOf (runGetStatsServer leeStore 1).2).map (fun s => s.levelProgress)
      = some 150 :=
  c5_level_progress_by_variant.1 leeStore 1 leeUser 150 (by rfl) (by rfl) (by decide)

/-- When no game row matches both the id and the owning user, the DELETE
statement leaves the store unchanged and reports zero changes. -/
theorem deleteGameSql_no_match (st : Store) (uid gid : Nat)
    (h : ∀ g ∈ st.games, ¬(g.id = gid ∧ g.user_id = uid)) :
    deleteGameSql st uid gid = (st, 0) := by
  have hfilter : st.games.filter (fun g => !(g.id == gid && g.user_id == uid))
      = st.games := by
    apply List.filter_eq_self.mpr
    intro a ha
    have hn := h a ha
    simp at hn ⊢
    tauto
  have hcount : st.games.countP (fun g => g.id == gid && g.user_id == uid) = 0 := by
    apply List.countP_eq_zero.mpr
    intro a ha
    have hn := h a ha
    simp at hn ⊢
    tauto
  simp only [deleteGameSql]
  rw [hfilter, hcount]

/-- Counterexample to C3: the Server variant of DELETE /api/collection/:id
responds with the bare ok body, which does not carry the count of deleted
rows. -/
theorem c3_counterexample :
    (apiCollectionDeleteServer (some 1) twoUserStore 7).2 = ApiResp.okUnit ∧
    carriesDeletedCount ApiResp.okUnit = false := ⟨rfl, rfl⟩

/-- C3 amended: both variants delete exactly the rows whose id and owning
user both match, and a call that matches nothing (unknown id or a row of
another user) succeeds with zero deletions and the store unchanged, never
an error; the P000 response carries deleted = this.changes, while the
Server response is a bare ok without the count. -/
theorem c3_remove_game_by_variant :
    (∀ st uid gid, (runCollectionDeleteP000 st uid gid).2
      = .okDeleted (st.games.countP (fun g => g.id == gid && g.user_id == uid))) ∧
    (∀ st uid gid g, g ∈ (runCollectionDeleteP000 st uid gid).1.games ↔
      g ∈ st.games ∧ ¬(g.id = gid ∧ g.user_id = uid)) ∧
    (∀ st uid gid, (∀ g ∈ st.games, ¬(g.id = gid ∧ g.user_id = uid)) →
      runCollectionDeleteP000 st uid gid = (st, .okDeleted 0)) ∧
    (∀ st uid gid, (runCollectionDeleteServer st uid gid).2 = ApiResp.okUnit) ∧
    (∀ st uid gid, (runCollectionDeleteServer st uid gid).1
      = (runCollectionDeleteP000 st uid gid).1) := by
  refine ⟨fun st uid gid => rfl, ?_, ?_, fun st uid gid => rfl,
    fun st uid gid => rfl⟩
  · intro st uid gid g
    simp [runCollectionDeleteP000, deleteGameSql, List.mem_filter, not_and]
    intro _
    tauto
  · intro st uid gid h
    simp [runCollectionDeleteP000, deleteGameSql_no_match st uid gid h]

/-- Witness for C3 amended: deleting the id 7 row as user 1 (it belongs to
user 2) answers deleted 0 in the P000 variant and leaves the store
unchanged. -/
theorem c3_witness :
    runCollectionDeleteP000 twoUserStore 1 7 = (twoUserStore, .okDeleted 0) :=
  c3_remove_game_by_variant.2.2.1 twoUserStore 1 7 (by decide)

/-- C4: with unique game ids, removing a game of another user deletes
nothing: both variants report their usual success body (deleted 0 in P000)
and return the store with every row intact. -/
theorem c4_foreign_delete_frame :
    ∀ st a b g, (st.games.map (fun x => x.id)).Nodup → g ∈ st.games →
      g.user_id = b → a ≠ b →
      runCollectionDeleteP000 st a g.id = (st, .okDeleted 0) ∧
      runCollectionDeleteServer st a g.id = (st, ApiResp.okUnit) := by
  intro st a b g hnodup hmem huser hab
  have hno : ∀ h ∈ st.games, ¬(h.id = g.id ∧ h.user_id = a) := by
    intro h hh hcontra
    have heq : h = g := List.inj_on_of_nodup_map hnodup hh hmem hcontra.1
    apply hab
    rw [← huser, ← heq]
    exact hcontra.2.symm
  have hdel := deleteGameSql_no_match st a g.id hno
  constructor
  · simp [runCollectionDeleteP000, hdel]
  · simp [runCollectionDeleteServer, hdel]

/-- Witness for C4: user 1 deleting the game with id 7 owned by user 2
leaves the two-user store unchanged and reports zero deletions. -/
theorem c4_witness :
    runCollectionDeleteP000 twoUserStore 1 7 = (twoUserStore, .okDeleted 0) ∧
    runCollectionDeleteServer twoUserStore 1 7 = (twoUserStore, ApiResp.okUnit) :=
  c4_foreign_delete_frame twoUserStore 1 2 bobGame (by decide) (by decide)
    (by decide) (by decide)

/-- Counterexample to C6: the P000 coercion Number(hours) passes negative
numeric strings through, so addGame with hours -5 stores the negative
value -5, not a non-negative integer. -/
theorem c6_counterexample :
    (runAddGameP000 adaStore 1 (some "Halo") none none (JVal.str "-5")).1.games
      = [⟨1, 1, some "Halo", some "", .int (-5), true, some ""⟩] ∧
    (-5 : Int) < 0 := by
  constructor
  · decide
  · decide

/-- C6 amended: in the P000 variant the stored hours is Number(hours) with
default 0 (absent or non-numeric input gives 0, the string 5 gives 5, and
negative numerics are stored as-is) and a blank or absent title is stored
as Untitled; the Server variant binds the raw values instead, so an absent
title is rejected by NOT NULL, a non-numeric hours string is stored as
text, and a numeric hours string is stored as its integer value by SQLite
affinity. -/
theorem c6_add_game_coercion :
    (∀ st uid title genre img hoursIn,
      (runAddGameP000 st uid title genre img hoursIn).1.games
        = st.games ++ [⟨nextId (st.games.map (fun g => g.id)), uid,
            some (jsOrStr title "Untitled"), some (jsOrStr genre ""),
            .int (jsOrNum (toNumber hoursIn) 0), true, some (jsOrStr img "")⟩]) ∧
    (toNumber (JVal.str "abc") = none ∧ jsOrNum none 0 = 0) ∧
    (toNumber (JVal.str "5") = some 5 ∧ jsOrNum (some 5) 0 = 5) ∧
    (jsOrStr none "Untitled" = "Untitled" ∧ jsOrStr (some "") "Untitled" = "Untitled") ∧
    (∀ st uid genre img hoursIn, runAddGameServer st uid none genre img hoursIn
      = (st, dbErrorResp)) ∧
    (bindIntCol (JVal.str "abc") = .text "abc" ∧ bindIntCol (JVal.str "5") = .int 5) := by
  refine ⟨fun st uid t g i h => rfl, ⟨by decide, by decide⟩, ⟨by decide, by decide⟩,
    ⟨by decide, by decide⟩, fun st uid g i h => rfl, ⟨by decide, by decide⟩⟩

/-- Counterexample to C7: updating the profile with name and email but
without bio succeeds and overwrites the stored bio with NULL instead of
retaining the previous value. -/
theorem c7_counterexample :
    (runProfileUpdate adaStore 1 (some "Ada") (some "ada@example.com") none none).1.users
      = [{ adaUser with bioText := none }] ∧
    (runProfileUpdate adaStore 1 (some "Ada") (some "ada@example.com") none none).2
      = ApiResp.okUnit ∧
    adaUser.bioText = some "likes platformers" := by
  refine ⟨by decide, by decide, by decide⟩

/-- C7 amended: the profile UPDATE overwrites name, email and bio with the
bound values (an absent field binds NULL rather than keeping the previous
value); an absent name or email violates NOT NULL and fails the whole
update with the 500 DB error, leaving the store unchanged; rows of other
users are never touched.  Only photo has keep-previous merge semantics. -/
theorem c7_update_overwrites_fields :
    (∀ st uid n e b ph row, findUserById st uid = some row →
      (n = none ∨ e = none) →
      runProfileUpdate st uid n e b ph = (st, dbErrorResp)) ∧
    (∀ st uid n e b ph u, u ∈ st.users → u.id = uid →
      ¬(n = none ∨ e = none) →
      (st.users.any (fun x => x.id != uid && x.email == e)) = false →
      updatedRow u n e b ph ∈ (runProfileUpdate st uid n e b ph).1.users) ∧
    (∀ st uid n e b ph u, u ∈ st.users → u.id ≠ uid →
      u ∈ (runProfileUpdate st uid n e b ph).1.users) := by
  refine ⟨?_, ?_, ?_⟩
  · intro st uid n e b ph row hfind habs
    unfold runProfileUpdate
    rw [hfind, if_pos habs]
  · intro st uid n e b ph u hu huid habs hany
    unfold runProfileUpdate
    cases hf : findUserById st uid with
    | none =>
      have hnone := List.find?_eq_none.mp hf u hu
      simp [huid] at hnone
    | some w =>
      rw [if_neg habs, if_neg (by simp [hany])]
      exact List.mem_map.mpr ⟨u, hu, by simp [huid, updatedRow]⟩
  · intro st uid n e b ph u hu hne
    unfold runProfileUpdate
    cases hf : findUserById st uid with
    | none => simpa using hu
    | some w =>
      by_cases h1 : n = none ∨ e = none
      · rw [if_pos h1]
        simpa using hu
      · rw [if_neg h1]
        by_cases h2 : (st.users.any (fun x => x.id != uid && x.email == e)) = true
        · rw [if_pos h2]
          simpa using hu
        · rw [if_neg h2]
          exact List.mem_map.mpr ⟨u, hu, by simp [hne]⟩

/-- Witness for C7 amended: a full update of the ada user stores exactly
the supplied fields, with the absent bio overwritten by NULL. -/
theorem c7_witness :
    updatedRow adaUser (some "Ada2") (some "ada2@example.com") (some "new bio") none
      ∈ (runProfileUpdate adaStore 1 (some "Ada2") (some "ada2@example.com")
          (some "new bio") none).1.users :=
  c7_update_overwrites_fields.2.1 adaStore 1 (some "Ada2") (some "ada2@example.com")
    (some "new bio") none adaUser (by decide) (by decide) (by decide) (by decide)

/-- Counterexample to C8: a profile update carrying a new photo reference
but no name or email is rejected by the NOT NULL constraint, so the stored
photo stays the old reference instead of becoming the new one. -/
theorem c8_counterexample :
    (runProfileUpdate photoStore 1 none none none (some "/uploads/new.png")).1.users
      = [photoUser] ∧
    (runProfileUpdate photoStore 1 none none none (some "/uploads/new.png")).2
      = dbErrorResp ∧
    photoUser.photo = some "/uploads/old.png" ∧
    some "/uploads/old.png" ≠ some "/uploads/new.png" := by
  refine ⟨by decide, by decide, by decide, by decide⟩

/-- C8 amended: an update without a photo never changes any stored photo
reference (COALESCE keeps the previous value on the matched row and other
rows are untouched); an update with a photo stores the new reference on
the matched row whenever the update itself succeeds, while a rejected
update (absent name or email) changes nothing. -/
theorem c8_photo_merge :
    (∀ st uid n e b,
      (runProfileUpdate st uid n e b none).1.users.map (fun u => u.photo)
        = st.users.map (fun u => u.photo)) ∧
    (∀ st uid n e b p u, u ∈ st.users → u.id = uid →
      ¬(n = none ∨ e = none) →
      (st.users.any (fun x => x.id != uid && x.email == e)) = false →
      updatedRow u n e b (some p) ∈ (runProfileUpdate st uid n e b (some p)).1.users ∧
      (updatedRow u n e b (some p)).photo = some p) ∧
    (∀ st uid n e b p row, findUserById st uid = some row →
      (n = none ∨ e = none) →
      runProfileUpdate st uid n e b (some p) = (st, dbErrorResp)) := by
  refine ⟨?_, ?_, ?_⟩
  · intro st uid n e b
    unfold runProfileUpdate
    cases hf : findUserById st uid with
    | none => rfl
    | some w =>
      by_cases h1 : n = none ∨ e = none
      · rw [if_pos h1]
      · rw [if_neg h1]
        by_cases h2 : (st.users.any (fun x => x.id != uid && x.email == e)) = true
        · rw [if_pos h2]
        · rw [if_neg h2]
          simp only [List.map_map]
          apply List.map_congr_left
          intro u hu
          by_cases hid : u.id = uid <;> simp [hid, coalesce]
  · intro st uid n e b p u hu huid habs hany
    constructor
    · unfold runProfileUpdate
      cases hf : findUserById st uid with
      | none =>
        have hnone := List.find?_eq_none.mp hf u hu
        simp [huid] at hnone
      | some w =>
        rw [if_neg habs, if_neg (by simp [hany])]
        exact List.mem_map.mpr ⟨u, hu, by simp [huid, updatedRow]⟩
    · rfl
  · intro st uid n e b p row hfind habs
    unfold runProfileUpdate
    rw [hfind, if_pos habs]

/-- Witness for C8 amended: updating the photo-carrying user with a new
photo stores the new reference. -/
theorem c8_witness :
    updatedRow photoUser (some "Ada") (some "ada@example.com") none
        (some "/uploads/new.png")
      ∈ (runProfileUpdate photoStore 1 (some "Ada") (some "ada@example.com") none
          (some "/uploads/new.png")).1.users ∧
    (updatedRow photoUser (some "Ada") (some "ada@example.com") none
        (some "/uploads/new.png")).photo = some "/uploads/new.png" :=
  c8_photo_merge.2.1 photoStore 1 (some "Ada") (some "ada@example.com") none
    "/uploads/new.png" photoUser (by decide) (by decide) (by decide) (by decide)

/-- Counterexample to C10: in the Server variant a user whose stored level
is NULL gets a stats body whose level field is null, not a defined
integer (there is no default for level in that variant). -/
theorem c10_counterexample :
    (statsServerOf (runGetStatsServer nullStatsStore 1).2).map (fun s => s.level)
      = some none := by
  have hfind : findUserById nullStatsStore 1 = some nullStatsUser := rfl
  simp [runGetStatsServer, statsServerOf, hfind, nullStatsUser]

/-- C10 amended: NULL wins and losses are substituted by 0 in both
variants (winRatio then 0) and a NULL hours sum by 0; the P000 variant
substitutes level 1 for a NULL level (and, because of JS falsiness, also
for a stored level 0) so all its fields are defined integers, while the
Server variant passes a NULL level through as null although its
levelProgress still evaluates to 0 because null coerces to 0. -/
theorem c10_stats_null_defaults :
    (∀ st uid row, findUserById st uid = some row → row.wins = none →
      row.losses = none →
      (statsP000Of (runGetStatsP000 st uid).2).map (fun s => s.winRatioPct) = some 0 ∧
      (statsServerOf (runGetStatsServer st uid).2).map (fun s => s.winRatioPct) = some 0) ∧
    (∀ st uid row, findUserById st uid = some row → row.level = none →
      (statsP000Of (runGetStatsP000 st uid).2).map (fun s => s.level) = some 1 ∧
      (statsP000Of (runGetStatsP000 st uid).2).map (fun s => s.levelProgress) = some 1 ∧
      (statsServerOf (runGetStatsServer st uid).2).map (fun s => s.level) = some none ∧
      (statsServerOf (runGetStatsServer st uid).2).map (fun s => s.levelProgress) = some 0) ∧
    (∀ st uid row, findUserById st uid = some row → row.level = some 0 →
      (statsP000Of (runGetStatsP000 st uid).2).map (fun s => s.level) = some 1) ∧
    (∀ st uid, ownedGamesOf st uid = [] →
      (statsP000Of (runGetStatsP000 st uid).2).map (fun s => s.totalHours) = some 0 ∧
      (statsServerOf (runGetStatsServer st uid).2).map (fun s => s.totalHours)
        = (findUserById st uid).map (fun _ => 0)) := by
  have h1 : jsRound 1 = 1 := by norm_num [jsRound, Int.floor_eq_iff]
  have h0 : jsRound 0 = 0 := by norm_num [jsRound, Int.floor_eq_iff]
  refine ⟨?_, ?_, ?_, ?_⟩
  · intro st uid row hfind hw hl
    constructor
    · simp [runGetStatsP000, statsP000Of, hfind, hw, hl, jsOrNum, winRatioJs]
    · simp [runGetStatsServer, statsServerOf, hfind, hw, hl, jsOrNum, winRatioJs]
  · intro st uid row hfind hl
    refine ⟨?_, ?_, ?_, ?_⟩
    · simp [runGetStatsP000, statsP000Of, hfind, hl, jsOrNum]
    · simp [runGetStatsP000, statsP000Of, hfind, hl, jsOrNum, h1]
    · simp [runGetStatsServer, statsServerOf, hfind, hl]
    · simp [runGetStatsServer, statsServerOf, hfind, hl, jsToNum, h0]
  · intro st uid row hfind hl
    simp [runGetStatsP000, statsP000Of, hfind, hl, jsOrNum]
  · intro st uid hempty
    constructor
    · simp [runGetStatsP000, statsP000Of, hempty, sumHours, jsOrNum]
    · cases hf : findUserById st uid with
      | none => simp [runGetStatsServer, statsServerOf, hf]
      | some w => simp [runGetStatsServer, statsServerOf, hf, hempty, sumHours, jsOrNum]

/-- Witness for C10 amended: on the all-NULL user both variants report
winRatio 0 and the P000 variant reports level 1. -/
theorem c10_witness :
    (statsP000Of (runGetStatsP000 nullStatsStore 1).2).map (fun s => s.winRatioPct)
      = some 0 ∧
    (statsServerOf (runGetStatsServer nullStatsStore 1).2).map (fun s => s.winRatioPct)
      = some 0 ∧
    (statsP000Of (runGetStatsP000 nullStatsStore 1).2).map (fun s => s.level)
      = some 1 :=
  ⟨(c10_stats_null_defaults.1 nullStatsStore 1 nullStatsUser rfl rfl rfl).1,
   (c10_stats_null_defaults.1 nullStatsStore 1 nullStatsUser rfl rfl rfl).2,
   (c10_stats_null_defaults.2.1 nullStatsStore 1 nullStatsUser rfl rfl).1⟩

end GameParkour
